import Mathlib

set_option maxHeartbeats 1000000

/-!
Shallow embedding of the CBuilder scaffolding tool (cbuilder.py).

The entity tree (CFunction / CClass / CModule / CProject) is embedded as
immutable structures; the code-generation methods, which in the source write
to files opened relative to the process working directory and read the
process-wide globals g_project_name and g_current_module, are embedded as
explicit state-passing functions over a PState record holding a directory/file
model of the filesystem, the working directory, the two globals and the
project value.  File paths are lists of path components.  A raised OS error
(os.mkdir on an existing directory) is modelled with Except, an uncaught
exception surfacing as the GenResult.raised outcome.
-/

/-- Character class of the regular expression [A-Za-z0-9_]: the characters the
menu-input sanitization keeps (re.sub removes the complement). -/
def isNameChar (c : Char) : Bool :=
  (decide ('a' ≤ c) && decide (c ≤ 'z')) ||
  (decide ('A' ≤ c) && decide (c ≤ 'Z')) ||
  (decide ('0' ≤ c) && decide (c ≤ '9')) ||
  (c == '_')

/-- The two-step name sanitization performed on every user-entered name in the
menu handlers: x.replace(' ', '_') followed by re.sub(r'[^a-zA-Z0-9_]', '', x).
Replacing the single character ' ' by the single character '_' is the
character-wise map, and the re.sub deletion is the character filter. -/
def sanitize (s : String) : String :=
  List.asString ((s.toList.map (fun c => if c = ' ' then '_' else c)).filter
    (fun c => isNameChar c))

/-- PRAGMA_ONCE_DEFINITION constant of the source. -/
def PRAGMA_ONCE_DEFINITION : String := "#pragma once\n"

/-- The namespace-opening text 'namespace P::M\n{\n' shared by the header
format string '\nnamespace {}::{}\n{{\n' (after its leading newline) and the
source-file format string 'namespace {}::{}\n{{\n'. -/
def namespaceBegin (p m : String) : String :=
  "namespace " ++ p ++ "::" ++ m ++ "\n\x7b\n"

/-- Python str-formatting of an optional value: '{}'.format(None) is "None". -/
def optStr : Option String → String
  | some s => s
  | none => "None"

/-- Models description.replace('\n', '\n\t\t\t'): every newline character of
the description is followed by the three tabs of the comment indentation. -/
def indentDescription (d : String) : String :=
  List.asString (d.toList.flatMap
    (fun c => if c = '\n' then ['\n', '\t', '\t', '\t'] else [c]))

/-- CFunction: name and optional documentation of a C++ function. -/
structure CFunction where
  name : String
  description : Option String
deriving DecidableEq

/-- CClass: class name plus the four member sequences. -/
structure CClass where
  name : String
  public_functions : List CFunction
  private_functions : List CFunction
  public_variables : List String
  private_variables : List String
deriving DecidableEq

/-- CClass.__get_header_function_declaration: comment block (if the
description is present), then the void declaration, then a spacing newline
(again only if the description is present). -/
def CClass.getHeaderFunctionDeclaration (fn : CFunction) : String :=
  let result : String := ""
  let result := match fn.description with
    | some d => result ++ "\t\t/*\n\t\t\t" ++ indentDescription d ++ "\n\t\t*/\n"
    | none => result
  let result := result ++ "\t\tvoid " ++ fn.name ++ "();\n"
  match fn.description with
  | some _ => result ++ "\n"
  | none => result

/-- The text appended by the loop 'for fn in fns: result += declaration'. -/
def declsOf : List CFunction → String
  | [] => ""
  | fn :: fns => CClass.getHeaderFunctionDeclaration fn ++ declsOf fns

/-- The text appended by the loop 'for var in vars: f.write("\t\t{};\n")'. -/
def varLinesOf : List String → String
  | [] => ""
  | v :: vs => "\t\t" ++ v ++ ";\n" ++ varLinesOf vs

/-- Public-functions block of __generate_header_file (lines 72-79): guarded by
len(public_functions) > 0, iterates public_functions. -/
def CClass.publicFunctionsPart (c : CClass) : String :=
  if 0 < c.public_functions.length then
    "\n" ++ "\tpublic:\n" ++ declsOf c.public_functions
  else ""

/-- Public-variables block of __generate_header_file (lines 81-87): guarded by
len(public_variables) > 0, iterates public_variables. -/
def CClass.publicVariablesPart (c : CClass) : String :=
  if 0 < c.public_variables.length then
    "\n" ++ "\tpublic:\n" ++ varLinesOf c.public_variables
  else ""

/-- Private-functions block of __generate_header_file (lines 89-96): guarded
by len(private_functions) > 0 but iterating public_functions, exactly as the
source does. -/
def CClass.privateFunctionsPart (c : CClass) : String :=
  if 0 < c.private_functions.length then
    "\n" ++ "\tprivate:\n" ++ declsOf c.public_functions
  else ""

/-- Private-variables block of __generate_header_file (lines 98-104): guarded
by len(private_variables) > 0 but iterating public_variables, exactly as the
source does. -/
def CClass.privateVariablesPart (c : CClass) : String :=
  if 0 < c.private_variables.length then
    "\n" ++ "\tprivate:\n" ++ varLinesOf c.public_variables
  else ""

/-- Full text written by CClass.__generate_header_file, with the globals
g_project_name and g_current_module passed explicitly (the caller supplies
their Python str-formatting via optStr). -/
def CClass.generate_header_file (c : CClass) (gp gm : String) : String :=
  PRAGMA_ONCE_DEFINITION
  ++ "\n" ++ namespaceBegin gp gm
  ++ "\tclass " ++ c.name ++ "\n"
  ++ "\t\x7b"
  ++ c.publicFunctionsPart
  ++ c.publicVariablesPart
  ++ c.privateFunctionsPart
  ++ c.privateVariablesPart
  ++ "\n"
  ++ "\t\x7d;\n"
  ++ "\x7d\n"

/-- Full text written by CClass.__generate_source_file. -/
def CClass.generate_source_file (c : CClass) (gp gm : String) : String :=
  "#include \"" ++ (c.name ++ ".h") ++ "\"\n\n"
  ++ namespaceBegin gp gm
  ++ "\x7d\n"

/-- CModule: module name and owned classes. -/
structure CModule where
  name : String
  classes : List CClass
deriving DecidableEq

/-- Loop body of CModule.get_class: linear scan for the first name match. -/
def getClassAux (name : String) : List CClass → Option CClass
  | [] => none
  | c :: cs => if c.name = name then some c else getClassAux name cs

/-- CModule.get_class: first class with the given name, None when absent. -/
def CModule.get_class (m : CModule) (name : String) : Option CClass :=
  getClassAux name m.classes

/-- Loop body of CModule.remove_class: the scan finds the first class whose
name matches and list.remove deletes exactly that occurrence, then breaks. -/
def removeClassAux (name : String) : List CClass → List CClass
  | [] => []
  | c :: cs => if c.name = name then cs else c :: removeClassAux name cs

/-- CModule.remove_class, returning the updated module. -/
def CModule.remove_class (m : CModule) (name : String) : CModule :=
  { m with classes := removeClassAux name m.classes }

/-- CProject: project name, C++ namespace and owned modules. -/
structure CProject where
  name : String
  cppnamespace : String
  modules : List CModule
deriving DecidableEq

/-- CProject.__init__: the namespace field is the cppnamespace argument when
it is non-empty ('' is the Python default) and the project name otherwise;
the module list starts empty. -/
def CProject.init (name cppnamespace : String) : CProject :=
  { name := name
    cppnamespace := if 0 < cppnamespace.length then cppnamespace else name
    modules := [] }

/-- Loop body of CProject.get_module: linear scan for the first name match. -/
def getModuleAux (name : String) : List CModule → Option CModule
  | [] => none
  | m :: ms => if m.name = name then some m else getModuleAux name ms

/-- CProject.get_module: first module with the given name, None when absent. -/
def CProject.get_module (p : CProject) (name : String) : Option CModule :=
  getModuleAux name p.modules

/-- Loop body of CProject.remove_module. -/
def removeModuleAux (name : String) : List CModule → List CModule
  | [] => []
  | m :: ms => if m.name = name then ms else m :: removeModuleAux name ms

/-- CProject.remove_module, returning the updated project. -/
def CProject.remove_module (p : CProject) (name : String) : CProject :=
  { p with modules := removeModuleAux name p.modules }

/-- Directory/file model of the filesystem port: the set of existing
directories (as absolute component paths) and the sequence of file writes;
a later write to the same path shadows an earlier one, so writes are
append-only events and the current content of a path is its last write. -/
structure FS where
  dirs : List (List String)
  files : List (List String × String)
deriving DecidableEq

/-- Process state threaded through generation: filesystem, working directory,
the two module-level globals g_project_name / g_current_module (both start as
None in the source), and the project object the generation walks. -/
structure PState where
  fs : FS
  cwd : List String
  gProjectName : Option String
  gCurrentModule : Option String
  project : CProject
deriving DecidableEq

/-- os.mkdir on a path relative to the working directory: raises (Except.error
with the unchanged state) when the directory already exists, otherwise records
the new directory. -/
def mkdir (st : PState) (dname : String) : Except PState PState :=
  if st.cwd ++ [dname] ∈ st.fs.dirs then .error st
  else .ok { st with fs := { st.fs with dirs := st.fs.dirs ++ [st.cwd ++ [dname]] } }

/-- open(fname, 'w') followed by the writes of one generated file: one write
event at cwd/fname. -/
def write_file (st : PState) (fname content : String) : PState :=
  { st with fs := { st.fs with files := st.fs.files ++ [(st.cwd ++ [fname], content)] } }

/-- CClass.generate_class_files: writes name.h then name.cpp in the current
directory, both formatted with the current values of the globals. -/
def CClass.generate_class_files (st : PState) (c : CClass) : PState :=
  let st1 := write_file st (c.name ++ ".h")
    (c.generate_header_file (optStr st.gProjectName) (optStr st.gCurrentModule))
  write_file st1 (c.name ++ ".cpp")
    (c.generate_source_file (optStr st1.gProjectName) (optStr st1.gCurrentModule))

/-- CModule.generate_cpp_source_files: set g_current_module, mkdir the module
directory (propagating the FileExistsError as Except.error), chdir in, emit
every class, chdir('..') and reset g_current_module to None. -/
def CModule.generate_cpp_source_files (st : PState) (m : CModule) : Except PState PState :=
  let st0 := { st with gCurrentModule := some m.name }
  match mkdir st0 m.name with
  | .error e => .error e
  | .ok st1 =>
    let st2 := { st1 with cwd := st1.cwd ++ [m.name] }
    let st3 := List.foldl CClass.generate_class_files st2 m.classes
    let st4 := { st3 with cwd := st3.cwd.dropLast }
    .ok { st4 with gCurrentModule := none }

/-- CProject.__generate_source_files: the loop over self.modules, stopping at
the first raised error. -/
def generate_source_files (st : PState) : List CModule → Except PState PState
  | [] => .ok st
  | m :: ms =>
    match m.generate_cpp_source_files st with
    | .error e => .error e
    | .ok st1 => generate_source_files st1 ms

/-- A target-directory argument: either an absolute component path or a path
relative to the working directory. -/
structure TargetPath where
  absolute : Bool
  comps : List String
deriving DecidableEq

/-- Models os.path.abspath for the filesystem port: an absolute argument is
returned as is, a relative one is resolved against the working directory. -/
def abspath (cwd : List String) (t : TargetPath) : List String :=
  if t.absolute then t.comps else cwd ++ t.comps

/-- Outcome of CProject.generate_project: normal return, one of the two
reported error returns, or an uncaught exception, each carrying the process
state at that point. -/
inductive GenResult where
  | ok : PState → GenResult
  | errTargetMissing : PState → GenResult
  | errAlreadyExists : PState → GenResult
  | raised : PState → GenResult
deriving DecidableEq

/-- The process state carried by a GenResult. -/
def GenResult.state : GenResult → PState
  | .ok s => s
  | .errTargetMissing s => s
  | .errAlreadyExists s => s
  | .raised s => s

/-- CProject.generate_project on the project held in the state: set
g_project_name to the project name, resolve the target, report the
target-missing error if the target is not a directory, chdir into the target,
report the already-exists error if the project directory exists, mkdir and
chdir into the project directory, then generate every module (the CMake step
of the source is a pass statement). -/
def generate_project (st : PState) (target_dir : TargetPath) : GenResult :=
  let st0 := { st with gProjectName := some st.project.name }
  let tgt := abspath st0.cwd target_dir
  if tgt ∉ st0.fs.dirs then
    .errTargetMissing st0
  else
    let st1 := { st0 with cwd := tgt }
    if st1.cwd ++ [st1.project.name] ∈ st1.fs.dirs then
      .errAlreadyExists st1
    else
      match mkdir st1 st1.project.name with
      | .error e => .raised e
      | .ok st2 =>
        let st3 := { st2 with cwd := st2.cwd ++ [st2.project.name] }
        match generate_source_files st3 st3.project.modules with
        | .error e => .raised e
        | .ok st4 => .ok st4

/-- Specification of the write events of the class loop of one module:
header then source file per class, in class order, in directory d, with the
globals gp / gm. -/
def classWrites (gp gm : String) (d : List String) : List CClass → List (List String × String)
  | [] => []
  | c :: cs =>
    (d ++ [c.name ++ ".h"], c.generate_header_file gp gm)
      :: (d ++ [c.name ++ ".cpp"], c.generate_source_file gp gm)
      :: classWrites gp gm d cs

/-- Specification of the write events of the module loop of a project rooted
at directory d. -/
def projectWrites (gp : String) (d : List String) : List CModule → List (List String × String)
  | [] => []
  | m :: ms => classWrites gp m.name (d ++ [m.name]) m.classes ++ projectWrites gp d ms

theorem fold_classes (cs : List CClass) : ∀ st : PState,
    List.foldl CClass.generate_class_files st cs =
      { st with fs := { st.fs with files :=
          (st.fs.files ++ classWrites (optStr st.gProjectName) (optStr st.gCurrentModule) st.cwd cs) } } := by
  induction cs with
  | nil => intro st; simp [classWrites]
  | cons c cs ih =>
    intro st
    rw [List.foldl_cons, ih]
    simp [CClass.generate_class_files, write_file, classWrites]

theorem generate_cpp_ok (m : CModule) (st : PState)
    (h : st.cwd ++ [m.name] ∉ st.fs.dirs) :
    m.generate_cpp_source_files st =
      .ok { st with
        fs := (⟨st.fs.dirs ++ [st.cwd ++ [m.name]],
               st.fs.files ++ classWrites (optStr st.gProjectName) m.name (st.cwd ++ [m.name]) m.classes⟩ : FS),
        gCurrentModule := none } := by
  simp [CModule.generate_cpp_source_files, mkdir, h, fold_classes, List.dropLast_concat, optStr]

theorem generate_cpp_err (m : CModule) (st : PState)
    (h : st.cwd ++ [m.name] ∈ st.fs.dirs) :
    m.generate_cpp_source_files st = .error { st with gCurrentModule := some m.name } := by
  simp [CModule.generate_cpp_source_files, mkdir, h]

theorem generate_cpp_ok_inv (m : CModule) (st st1 : PState)
    (h : m.generate_cpp_source_files st = .ok st1) :
    st.cwd ++ [m.name] ∉ st.fs.dirs ∧
    st1 = { st with
        fs := (⟨st.fs.dirs ++ [st.cwd ++ [m.name]],
               st.fs.files ++ classWrites (optStr st.gProjectName) m.name (st.cwd ++ [m.name]) m.classes⟩ : FS),
        gCurrentModule := none } := by
  by_cases hmem : st.cwd ++ [m.name] ∈ st.fs.dirs
  · rw [generate_cpp_err m st hmem] at h
    exact absurd h (by simp)
  · rw [generate_cpp_ok m st hmem] at h
    exact ⟨hmem, (Except.ok.inj h).symm⟩

theorem generate_cpp_err_inv (m : CModule) (st e : PState)
    (h : m.generate_cpp_source_files st = .error e) :
    e = { st with gCurrentModule := some m.name } := by
  by_cases hmem : st.cwd ++ [m.name] ∈ st.fs.dirs
  · rw [generate_cpp_err m st hmem] at h
    exact (Except.error.inj h).symm
  · rw [generate_cpp_ok m st hmem] at h
    exact absurd h (by simp)

theorem generate_source_files_ok (ms : List CModule) : ∀ st st1 : PState,
    generate_source_files st ms = .ok st1 →
    st1.fs.files = st.fs.files ++ projectWrites (optStr st.gProjectName) st.cwd ms ∧
    st1.cwd = st.cwd ∧ st1.gProjectName = st.gProjectName ∧ st1.project = st.project := by
  induction ms with
  | nil =>
    intro st st1 h
    have : st = st1 := Except.ok.inj h
    subst this
    simp [projectWrites]
  | cons m ms ih =>
    intro st st1 h
    rw [generate_source_files] at h
    cases hg : m.generate_cpp_source_files st with
    | error e => rw [hg] at h; exact absurd h (by simp)
    | ok stm =>
      rw [hg] at h
      obtain ⟨-, hshape⟩ := generate_cpp_ok_inv m st stm hg
      obtain ⟨hf, hc, hp, hpr⟩ := ih stm st1 h
      subst hshape
      simp only [hf, hc, hp, hpr]
      simp [projectWrites, optStr, List.append_assoc]

theorem generate_source_files_err (ms : List CModule) : ∀ st e : PState,
    generate_source_files st ms = .error e → e.project = st.project := by
  induction ms with
  | nil => intro st e h; exact absurd h (by simp [generate_source_files])
  | cons m ms ih =>
    intro st e h
    rw [generate_source_files] at h
    cases hg : m.generate_cpp_source_files st with
    | error e2 =>
      rw [hg] at h
      have he : e2 = e := Except.error.inj h
      have := generate_cpp_err_inv m st e2 hg
      subst he; rw [this]
    | ok stm =>
      rw [hg] at h
      obtain ⟨-, hshape⟩ := generate_cpp_ok_inv m st stm hg
      have := ih stm e h
      rw [this, hshape]

theorem generate_project_target_missing (st : PState) (t : TargetPath)
    (h : abspath st.cwd t ∉ st.fs.dirs) :
    generate_project st t = .errTargetMissing { st with gProjectName := some st.project.name } := by
  simp [generate_project, h]

theorem generate_project_already_exists (st : PState) (t : TargetPath)
    (h1 : abspath st.cwd t ∈ st.fs.dirs)
    (h2 : abspath st.cwd t ++ [st.project.name] ∈ st.fs.dirs) :
    generate_project st t =
      .errAlreadyExists { st with gProjectName := some st.project.name, cwd := abspath st.cwd t } := by
  simp [generate_project, h1, h2]

theorem generate_project_ok_case (st : PState) (t : TargetPath)
    (h1 : abspath st.cwd t ∈ st.fs.dirs)
    (h2 : abspath st.cwd t ++ [st.project.name] ∉ st.fs.dirs) :
    generate_project st t =
      (match generate_source_files
        { st with gProjectName := some st.project.name,
                  cwd := (abspath st.cwd t ++ [st.project.name]),
                  fs := (⟨st.fs.dirs ++ [abspath st.cwd t ++ [st.project.name]], st.fs.files⟩ : FS) }
        st.project.modules with
      | .error e => .raised e
      | .ok st4 => .ok st4) := by
  simp [generate_project, mkdir, h1, h2]

theorem generate_project_ok_inv (st stF : PState) (t : TargetPath)
    (h : generate_project st t = .ok stF) :
    abspath st.cwd t ∈ st.fs.dirs ∧
    abspath st.cwd t ++ [st.project.name] ∉ st.fs.dirs ∧
    stF.fs.files =
      (st.fs.files ++
        projectWrites st.project.name (abspath st.cwd t ++ [st.project.name]) st.project.modules) ∧
    stF.cwd = (abspath st.cwd t ++ [st.project.name]) ∧
    stF.gProjectName = some st.project.name ∧
    stF.project = st.project := by
  by_cases h1 : abspath st.cwd t ∈ st.fs.dirs
  · by_cases h2 : abspath st.cwd t ++ [st.project.name] ∈ st.fs.dirs
    · rw [generate_project_already_exists st t h1 h2] at h
      exact absurd h (by simp)
    · rw [generate_project_ok_case st t h1 h2] at h
      cases hg : generate_source_files
        { st with gProjectName := some st.project.name,
                  cwd := (abspath st.cwd t ++ [st.project.name]),
                  fs := (⟨st.fs.dirs ++ [abspath st.cwd t ++ [st.project.name]], st.fs.files⟩ : FS) }
        st.project.modules with
      | error e => rw [hg] at h; exact absurd h (by simp)
      | ok st4 =>
        rw [hg] at h
        have h4 : st4 = stF := by simpa using h
        subst h4
        obtain ⟨hf, hc, hp, hpr⟩ := generate_source_files_ok st.project.modules _ st4 hg
        refine ⟨h1, h2, ?_, ?_, ?_, ?_⟩
        · simpa [optStr] using hf
        · simpa using hc
        · simpa using hp
        · simpa using hpr
  · rw [generate_project_target_missing st t h1] at h
    exact absurd h (by simp)

theorem mem_classWrites (gp gm : String) (d : List String) (cs : List CClass) (c : CClass)
    (h : c ∈ cs) :
    (d ++ [c.name ++ ".h"], c.generate_header_file gp gm) ∈ classWrites gp gm d cs ∧
    (d ++ [c.name ++ ".cpp"], c.generate_source_file gp gm) ∈ classWrites gp gm d cs := by
  induction cs with
  | nil => cases h
  | cons x xs ih =>
    rcases List.mem_cons.mp h with rfl | hx
    · constructor <;> simp [classWrites]
    · obtain ⟨ih1, ih2⟩ := ih hx
      constructor <;> simp [classWrites, ih1, ih2]

theorem mem_projectWrites (gp : String) (d : List String) (ms : List CModule)
    (m : CModule) (c : CClass) (hm : m ∈ ms) (hc : c ∈ m.classes) :
    (d ++ [m.name] ++ [c.name ++ ".h"], c.generate_header_file gp m.name) ∈ projectWrites gp d ms ∧
    (d ++ [m.name] ++ [c.name ++ ".cpp"], c.generate_source_file gp m.name) ∈ projectWrites gp d ms := by
  induction ms with
  | nil => cases hm
  | cons x xs ih =>
    rcases List.mem_cons.mp hm with rfl | hx
    · obtain ⟨h1, h2⟩ := mem_classWrites gp m.name (d ++ [m.name]) m.classes c hc
      exact ⟨by simpa [projectWrites] using List.mem_append_left _ h1,
             by simpa [projectWrites] using List.mem_append_left _ h2⟩
    · obtain ⟨ih1, ih2⟩ := ih hx
      exact ⟨by simpa [projectWrites] using List.mem_append_right _ ih1,
             by simpa [projectWrites] using List.mem_append_right _ ih2⟩

theorem sanitize_toList (s : String) :
    (sanitize s).toList =
      (s.toList.map (fun c => if c = ' ' then '_' else c)).filter (fun c => isNameChar c) := rfl

theorem sanitize_chars_valid (s : String) :
    ∀ c ∈ (sanitize s).toList, isNameChar c = true := by
  intro c hc
  rw [sanitize_toList] at hc
  exact (List.mem_filter.mp hc).2

theorem getClassAux_eq_find? (name : String) (cs : List CClass) :
    getClassAux name cs = cs.find? (fun c => c.name == name) := by
  induction cs with
  | nil => rfl
  | cons c cs ih =>
    by_cases h : c.name = name
    · simp [getClassAux, List.find?_cons, h]
    · simp [getClassAux, List.find?_cons, h, ih]

theorem getModuleAux_eq_find? (name : String) (ms : List CModule) :
    getModuleAux name ms = ms.find? (fun m => m.name == name) := by
  induction ms with
  | nil => rfl
  | cons m ms ih =>
    by_cases h : m.name = name
    · simp [getModuleAux, List.find?_cons, h]
    · simp [getModuleAux, List.find?_cons, h, ih]

theorem removeClassAux_eq_eraseP (name : String) (cs : List CClass) :
    removeClassAux name cs = cs.eraseP (fun c => c.name == name) := by
  induction cs with
  | nil => rfl
  | cons c cs ih =>
    by_cases h : c.name = name
    · simp [removeClassAux, List.eraseP_cons, h]
    · simp [removeClassAux, List.eraseP_cons, h, ih]

theorem removeModuleAux_eq_eraseP (name : String) (ms : List CModule) :
    removeModuleAux name ms = ms.eraseP (fun m => m.name == name) := by
  induction ms with
  | nil => rfl
  | cons m ms ih =>
    by_cases h : m.name = name
    · simp [removeModuleAux, List.eraseP_cons, h]
    · simp [removeModuleAux, List.eraseP_cons, h, ih]

/-- C3: generate_project reports the "target missing" condition when the
resolved target path is not an existing directory and the "already exists"
condition when a directory named after the project already exists inside the
target; in both failure cases it returns without creating any directory or
writing any file, leaving the filesystem (directory set and file writes)
exactly as it was. -/
theorem generate_project_failure_leaves_fs_unchanged (st : PState) (t : TargetPath) :
    (abspath st.cwd t ∉ st.fs.dirs →
      generate_project st t =
        .errTargetMissing { st with gProjectName := some st.project.name } ∧
      (generate_project st t).state.fs = st.fs) ∧
    (abspath st.cwd t ∈ st.fs.dirs →
      abspath st.cwd t ++ [st.project.name] ∈ st.fs.dirs →
      generate_project st t =
        .errAlreadyExists { st with gProjectName := some st.project.name, cwd := abspath st.cwd t } ∧
      (generate_project st t).state.fs = st.fs) := by
  constructor
  · intro h
    rw [generate_project_target_missing st t h]
    exact ⟨rfl, rfl⟩
  · intro h1 h2
    rw [generate_project_already_exists st t h1 h2]
    exact ⟨rfl, rfl⟩

/-- Witness for C3: a run against a missing target directory and a run whose
target already contains a directory named after the project, both on concrete
states, return the reported error with the filesystem untouched. -/
theorem generate_project_failure_leaves_fs_unchanged_witness :
    (generate_project ⟨⟨[], []⟩, [], none, none, ⟨"p", "p", []⟩⟩ ⟨true, ["t"]⟩ =
      .errTargetMissing ⟨⟨[], []⟩, [], some "p", none, ⟨"p", "p", []⟩⟩) ∧
    (generate_project ⟨⟨[["t"], ["t", "p"]], []⟩, [], none, none, ⟨"p", "p", []⟩⟩ ⟨true, ["t"]⟩ =
      .errAlreadyExists ⟨⟨[["t"], ["t", "p"]], []⟩, ["t"], some "p", none, ⟨"p", "p", []⟩⟩) := by
  constructor
  · exact ((generate_project_failure_leaves_fs_unchanged
      ⟨⟨[], []⟩, [], none, none, ⟨"p", "p", []⟩⟩ ⟨true, ["t"]⟩).1 (by decide)).1
  · exact ((generate_project_failure_leaves_fs_unchanged
      ⟨⟨[["t"], ["t", "p"]], []⟩, [], none, none, ⟨"p", "p", []⟩⟩ ⟨true, ["t"]⟩).2
      (by decide) (by decide)).1

/-- C9: generate_project never mutates the entity tree: whatever the outcome
(success, either reported failure, or a raised error), the project carried by
the resulting process state - its name, namespace and whole module/class tree -
is the project it started with. -/
theorem generate_project_preserves_project_tree (st : PState) (t : TargetPath) :
    (generate_project st t).state.project = st.project := by
  by_cases h1 : abspath st.cwd t ∈ st.fs.dirs
  · by_cases h2 : abspath st.cwd t ++ [st.project.name] ∈ st.fs.dirs
    · rw [generate_project_already_exists st t h1 h2]; rfl
    · rw [generate_project_ok_case st t h1 h2]
      cases hg : generate_source_files
        { st with gProjectName := some st.project.name,
                  cwd := (abspath st.cwd t ++ [st.project.name]),
                  fs := (⟨st.fs.dirs ++ [abspath st.cwd t ++ [st.project.name]], st.fs.files⟩ : FS) }
        st.project.modules with
      | error e =>
        have he := generate_source_files_err st.project.modules _ e hg
        simpa [GenResult.state] using he
      | ok s4 =>
        have hs := (generate_source_files_ok st.project.modules _ s4 hg).2.2.2
        simpa [GenResult.state] using hs
  · rw [generate_project_target_missing st t h1]; rfl

/-- C10: when generate_project fails with the "already exists" condition, the
global project-name variable has already been set to the project's name and
the working directory has already been changed to the resolved target
directory, and the error return restores neither. -/
theorem already_exists_failure_mutated_globals (st : PState) (t : TargetPath)
    (h1 : abspath st.cwd t ∈ st.fs.dirs)
    (h2 : abspath st.cwd t ++ [st.project.name] ∈ st.fs.dirs) :
    ∃ stE : PState, generate_project st t = .errAlreadyExists stE ∧
      stE.gProjectName = some st.project.name ∧
      stE.cwd = abspath st.cwd t := by
  exact ⟨_, generate_project_already_exists st t h1 h2, rfl, rfl⟩

/-- Witness for C10: on a concrete state whose working directory is elsewhere,
the already-exists failure leaves the global set to "p" and the working
directory moved to the target. -/
theorem already_exists_failure_mutated_globals_witness :
    ∃ stE : PState,
      generate_project ⟨⟨[["t"], ["t", "p"]], []⟩, ["home"], none, none, ⟨"p", "p", []⟩⟩
        ⟨true, ["t"]⟩ = .errAlreadyExists stE ∧
      stE.gProjectName = some "p" ∧
      stE.cwd = ["t"] := by
  exact already_exists_failure_mutated_globals
    ⟨⟨[["t"], ["t", "p"]], []⟩, ["home"], none, none, ⟨"p", "p", []⟩⟩ ⟨true, ["t"]⟩
    (by decide) (by decide)

/-- C5: get_module and get_class are linear scans returning the first element
whose name equals the given name exactly (the semantics of List.find? with an
exact name test), and return the not-found sentinel none rather than raising
when no element matches, in particular on an empty collection. -/
theorem lookup_first_match_or_none (p : CProject) (m : CModule) (name : String) :
    p.get_module name = p.modules.find? (fun x => x.name == name) ∧
    m.get_class name = m.classes.find? (fun c => c.name == name) ∧
    CProject.get_module ⟨p.name, p.cppnamespace, []⟩ name = none ∧
    CModule.get_class ⟨m.name, []⟩ name = none := by
  exact ⟨getModuleAux_eq_find? name p.modules, getClassAux_eq_find? name m.classes, rfl, rfl⟩

/-- C6: remove_module and remove_class remove exactly the first element whose
name matches (List.eraseP with the exact name test), touch no other field,
and are a no-op leaving the collection unchanged when no element matches. -/
theorem remove_first_match_only (p : CProject) (m : CModule) (name : String) :
    (p.remove_module name).modules = p.modules.eraseP (fun x => x.name == name) ∧
    (p.remove_module name).name = p.name ∧
    (p.remove_module name).cppnamespace = p.cppnamespace ∧
    (m.remove_class name).classes = m.classes.eraseP (fun c => c.name == name) ∧
    (m.remove_class name).name = m.name ∧
    ((∀ x ∈ p.modules, x.name ≠ name) → p.remove_module name = p) ∧
    ((∀ c ∈ m.classes, c.name ≠ name) → m.remove_class name = m) := by
  refine ⟨removeModuleAux_eq_eraseP name p.modules, rfl, rfl,
    removeClassAux_eq_eraseP name m.classes, rfl, ?_, ?_⟩
  · intro h
    have hid : removeModuleAux name p.modules = p.modules := by
      rw [removeModuleAux_eq_eraseP]
      exact List.eraseP_of_forall_not (by intro a ha; simpa using h a ha)
    simp [CProject.remove_module, hid]
  · intro h
    have hid : removeClassAux name m.classes = m.classes := by
      rw [removeClassAux_eq_eraseP]
      exact List.eraseP_of_forall_not (by intro a ha; simpa using h a ha)
    simp [CModule.remove_class, hid]

/-- Witness for C6: removing a present name deletes only its first holder,
and removing an absent name from concrete one-element containers changes
nothing. -/
theorem remove_first_match_only_witness :
    (CProject.remove_module ⟨"p", "p", [⟨"a", []⟩, ⟨"b", []⟩]⟩ "a").modules = [⟨"b", []⟩] ∧
    CProject.remove_module ⟨"p", "p", [⟨"a", []⟩]⟩ "zzz" = ⟨"p", "p", [⟨"a", []⟩]⟩ ∧
    CModule.remove_class ⟨"m", [⟨"c", [], [], [], []⟩]⟩ "zzz" = ⟨"m", [⟨"c", [], [], [], []⟩]⟩ := by
  refine ⟨?_, ?_, ?_⟩
  · rw [(remove_first_match_only ⟨"p", "p", [⟨"a", []⟩, ⟨"b", []⟩]⟩ ⟨"m", []⟩ "a").1]
    decide
  · exact (remove_first_match_only ⟨"p", "p", [⟨"a", []⟩]⟩ ⟨"m", []⟩ "zzz").2.2.2.2.2.1
      (by decide)
  · exact (remove_first_match_only ⟨"p", "p", []⟩ ⟨"m", [⟨"c", [], [], [], []⟩]⟩ "zzz").2.2.2.2.2.2
      (by decide)

/-- C4 counterexample: the single-space input consists only of characters
outside [A-Za-z0-9_], yet its sanitization is "_" (the space is first turned
into an underscore, which the strip then keeps), not the empty string - so
"an all-invalid input yields the empty string" fails as universally stated. -/
theorem sanitize_all_invalid_space_counterexample :
    (∀ c ∈ " ".toList, isNameChar c = false) ∧
    sanitize " " ≠ "" ∧
    sanitize " " = "_" := by decide

/-- C4 amended: sanitize always yields a string over [A-Za-z0-9_] with no
spaces, is idempotent, and never fails; an input all of whose characters are
outside [A-Za-z0-9_] and none of which is a space yields the empty string
(a space, although outside the alphabet, survives as an underscore). -/
theorem sanitize_charset_idempotent (s : String) :
    (∀ c ∈ (sanitize s).toList, isNameChar c = true) ∧
    (' ' ∉ (sanitize s).toList) ∧
    sanitize (sanitize s) = sanitize s ∧
    ((∀ c ∈ s.toList, isNameChar c = false ∧ c ≠ ' ') → sanitize s = "") := by
  refine ⟨sanitize_chars_valid s, ?_, ?_, ?_⟩
  · intro h
    exact absurd (sanitize_chars_valid s ' ' h) (by decide)
  · have hmap : (sanitize s).toList.map (fun c => if c = ' ' then '_' else c) =
        (sanitize s).toList := by
      have hcongr : ∀ c ∈ (sanitize s).toList,
          (if c = ' ' then '_' else c) = id c := by
        intro c hc
        have hv := sanitize_chars_valid s c hc
        by_cases hsp : c = ' '
        · subst hsp; exact absurd hv (by decide)
        · simp [hsp]
      rw [List.map_congr_left hcongr, List.map_id]
    have hfil : ((sanitize s).toList).filter (fun c => isNameChar c) = (sanitize s).toList :=
      List.filter_eq_self.mpr (fun a ha => sanitize_chars_valid s a ha)
    show List.asString (((sanitize s).toList.map
        (fun c => if c = ' ' then '_' else c)).filter (fun c => isNameChar c)) = sanitize s
    rw [hmap, hfil]
    rfl
  · intro h
    have hnil : (s.toList.map (fun c => if c = ' ' then '_' else c)).filter
        (fun c => isNameChar c) = [] := by
      rw [List.filter_eq_nil_iff]
      intro b hb
      obtain ⟨a, ha, rfl⟩ := List.mem_map.mp hb
      obtain ⟨h1, h2⟩ := h a ha
      simp [h2, h1]
    show List.asString ((s.toList.map (fun c => if c = ' ' then '_' else c)).filter
        (fun c => isNameChar c)) = ""
    rw [hnil]
    rfl

/-- Witness for C4 amended: "!!!" is all-invalid and space-free and sanitizes
to the empty string, and sanitization of a concrete mixed input is a fixed
point of sanitize. -/
theorem sanitize_charset_idempotent_witness :
    (∀ c ∈ "!!!".toList, isNameChar c = false ∧ c ≠ ' ') ∧
    sanitize "!!!" = "" ∧
    sanitize (sanitize "a b!") = sanitize "a b!" := by
  refine ⟨by decide, ?_, (sanitize_charset_idempotent "a b!").2.2.1⟩
  exact (sanitize_charset_idempotent "!!!").2.2.2 (by decide)

/-- C2: when private_functions is non-empty the header emits the private
marker followed by declarations built from public_functions, and when
private_variables is non-empty the private-variable section emits one line
per element of public_variables; consequently the header text does not depend
on the contents of the private sequences beyond their non-emptiness. -/
theorem private_sections_use_public_lists (gp gm : String) (c : CClass) :
    (c.private_functions ≠ [] →
      c.generate_header_file gp gm =
        PRAGMA_ONCE_DEFINITION ++ "\n" ++ namespaceBegin gp gm
        ++ "\tclass " ++ c.name ++ "\n" ++ "\t\x7b"
        ++ c.publicFunctionsPart ++ c.publicVariablesPart
        ++ ("\n" ++ "\tprivate:\n" ++ declsOf c.public_functions)
        ++ c.privateVariablesPart
        ++ "\n" ++ "\t\x7d;\n" ++ "\x7d\n") ∧
    (c.private_variables ≠ [] →
      c.generate_header_file gp gm =
        PRAGMA_ONCE_DEFINITION ++ "\n" ++ namespaceBegin gp gm
        ++ "\tclass " ++ c.name ++ "\n" ++ "\t\x7b"
        ++ c.publicFunctionsPart ++ c.publicVariablesPart ++ c.privateFunctionsPart
        ++ ("\n" ++ "\tprivate:\n" ++ varLinesOf c.public_variables)
        ++ "\n" ++ "\t\x7d;\n" ++ "\x7d\n") ∧
    (∀ (pf : List CFunction) (pv : List String),
      pf ≠ [] → c.private_functions ≠ [] → pv ≠ [] → c.private_variables ≠ [] →
      CClass.generate_header_file
          { c with private_functions := pf, private_variables := pv } gp gm
        = c.generate_header_file gp gm) := by
  refine ⟨?_, ?_, ?_⟩
  · intro h
    simp [CClass.generate_header_file, CClass.privateFunctionsPart, List.length_pos.mpr h]
  · intro h
    simp [CClass.generate_header_file, CClass.privateVariablesPart, List.length_pos.mpr h]
  · intro pf pv hpf hf hpv hv
    simp [CClass.generate_header_file, CClass.publicFunctionsPart, CClass.publicVariablesPart,
      CClass.privateFunctionsPart, CClass.privateVariablesPart,
      List.length_pos.mpr hf, List.length_pos.mpr hv,
      List.length_pos.mpr hpf, List.length_pos.mpr hpv]

/-- Witness for C2: on a concrete class with non-empty private sequences, the
header equals the header of the same class with entirely different non-empty
private sequences, and its private section is built from the public lists. -/
theorem private_sections_use_public_lists_witness :
    CClass.generate_header_file
        ⟨"k", [⟨"pub", none⟩], [⟨"x", none⟩], ["int a"], ["int b"]⟩ "p" "m"
      = CClass.generate_header_file
        ⟨"k", [⟨"pub", none⟩], [⟨"y", some "doc"⟩, ⟨"z", none⟩], ["int a"], ["int other"]⟩ "p" "m" ∧
    CClass.generate_header_file
        ⟨"k", [⟨"pub", none⟩], [⟨"x", none⟩], ["int a"], ["int b"]⟩ "p" "m"
      = PRAGMA_ONCE_DEFINITION ++ "\n" ++ namespaceBegin "p" "m"
        ++ "\tclass " ++ "k" ++ "\n" ++ "\t\x7b"
        ++ CClass.publicFunctionsPart ⟨"k", [⟨"pub", none⟩], [⟨"x", none⟩], ["int a"], ["int b"]⟩
        ++ CClass.publicVariablesPart ⟨"k", [⟨"pub", none⟩], [⟨"x", none⟩], ["int a"], ["int b"]⟩
        ++ ("\n" ++ "\tprivate:\n" ++ declsOf [⟨"pub", none⟩])
        ++ CClass.privateVariablesPart ⟨"k", [⟨"pub", none⟩], [⟨"x", none⟩], ["int a"], ["int b"]⟩
        ++ "\n" ++ "\t\x7d;\n" ++ "\x7d\n" := by
  constructor
  · exact (private_sections_use_public_lists "p" "m"
      ⟨"k", [⟨"pub", none⟩], [⟨"y", some "doc"⟩, ⟨"z", none⟩], ["int a"], ["int other"]⟩).2.2
      [⟨"x", none⟩] ["int b"] (by decide) (by decide) (by decide) (by decide)
  · exact (private_sections_use_public_lists "p" "m"
      ⟨"k", [⟨"pub", none⟩], [⟨"x", none⟩], ["int a"], ["int b"]⟩).1 (by decide)

/-- C7: for each public function the header emits the block comment with the
re-indented description only when a description is present, then a
no-argument void declaration named after the function, then a blank line
exactly when a description was emitted; the public section of the header is
the public marker followed by these declarations in sequence order. -/
theorem public_function_declaration_shape (fn : CFunction) (gp gm : String) (c : CClass) :
    (fn.description = none →
      CClass.getHeaderFunctionDeclaration fn = "\t\tvoid " ++ fn.name ++ "();\n") ∧
    (∀ d : String, fn.description = some d →
      CClass.getHeaderFunctionDeclaration fn =
        "\t\t/*\n\t\t\t" ++ indentDescription d ++ "\n\t\t*/\n"
        ++ "\t\tvoid " ++ fn.name ++ "();\n" ++ "\n") ∧
    (c.public_functions ≠ [] →
      c.generate_header_file gp gm =
        PRAGMA_ONCE_DEFINITION ++ "\n" ++ namespaceBegin gp gm
        ++ "\tclass " ++ c.name ++ "\n" ++ "\t\x7b"
        ++ ("\n" ++ "\tpublic:\n" ++ declsOf c.public_functions)
        ++ c.publicVariablesPart ++ c.privateFunctionsPart ++ c.privateVariablesPart
        ++ "\n" ++ "\t\x7d;\n" ++ "\x7d\n") := by
  refine ⟨?_, ?_, ?_⟩
  · intro h
    simp [CClass.getHeaderFunctionDeclaration, h]
  · intro d h
    simp [CClass.getHeaderFunctionDeclaration, h]
  · intro h
    simp [CClass.generate_header_file, CClass.publicFunctionsPart, List.length_pos.mpr h]

/-- Witness for C7: concrete declarations with and without a description, and
the concrete header of a class with one public function. -/
theorem public_function_declaration_shape_witness :
    CClass.getHeaderFunctionDeclaration ⟨"run", none⟩ = "\t\tvoid " ++ "run" ++ "();\n" ∧
    CClass.getHeaderFunctionDeclaration ⟨"render", some "a\nb"⟩ =
      "\t\t/*\n\t\t\t" ++ indentDescription "a\nb" ++ "\n\t\t*/\n"
      ++ "\t\tvoid " ++ "render" ++ "();\n" ++ "\n" ∧
    CClass.generate_header_file ⟨"Engine", [⟨"run", none⟩], [], [], []⟩ "demo" "core" =
      PRAGMA_ONCE_DEFINITION ++ "\n" ++ namespaceBegin "demo" "core"
      ++ "\tclass " ++ "Engine" ++ "\n" ++ "\t\x7b"
      ++ ("\n" ++ "\tpublic:\n" ++ declsOf [⟨"run", none⟩])
      ++ CClass.publicVariablesPart ⟨"Engine", [⟨"run", none⟩], [], [], []⟩
      ++ CClass.privateFunctionsPart ⟨"Engine", [⟨"run", none⟩], [], [], []⟩
      ++ CClass.privateVariablesPart ⟨"Engine", [⟨"run", none⟩], [], [], []⟩
      ++ "\n" ++ "\t\x7d;\n" ++ "\x7d\n" := by
  refine ⟨?_, ?_, ?_⟩
  · exact (public_function_declaration_shape ⟨"run", none⟩ "demo" "core"
      ⟨"Engine", [⟨"run", none⟩], [], [], []⟩).1 rfl
  · exact (public_function_declaration_shape ⟨"render", some "a\nb"⟩ "demo" "core"
      ⟨"Engine", [⟨"run", none⟩], [], [], []⟩).2.1 "a\nb" rfl
  · exact (public_function_declaration_shape ⟨"run", none⟩ "demo" "core"
      ⟨"Engine", [⟨"run", none⟩], [], [], []⟩).2.2 (by decide)

/-- C8: the generated source file is exactly the include of the corresponding
header filename, the opening of the same namespace construct the header opens
(namespaceBegin gp gm in both), and its closing brace - nothing else, so no
function or method bodies are ever emitted. -/
theorem source_file_shape (gp gm : String) (c : CClass) :
    c.generate_source_file gp gm =
      "#include \"" ++ (c.name ++ ".h") ++ "\"\n\n" ++ namespaceBegin gp gm ++ "\x7d\n" ∧
    c.generate_header_file gp gm =
      PRAGMA_ONCE_DEFINITION ++ "\n" ++ namespaceBegin gp gm
      ++ "\tclass " ++ c.name ++ "\n" ++ "\t\x7b" ++ c.publicFunctionsPart
      ++ c.publicVariablesPart ++ c.privateFunctionsPart ++ c.privateVariablesPart
      ++ "\n" ++ "\t\x7d;\n" ++ "\x7d\n" := ⟨rfl, rfl⟩

/-- C1 counterexample: a project constructed with name "p" and explicit
namespace "ns" stores cppnamespace = "ns", yet generating it (one module "m",
one class "c") writes a source file whose namespace construct is p::m, the
project NAME joined with the module - not ns::m built from the namespace
field; the file content differs from what the claim requires. -/
theorem namespace_field_unused_counterexample :
    (CProject.init "p" "ns").cppnamespace = "ns" ∧
    (CProject.init "p" "ns").name = "p" ∧
    (generate_project
        ⟨⟨[["t"]], []⟩, [], none, none,
          { CProject.init "p" "ns" with modules := [⟨"m", [⟨"c", [], [], [], []⟩]⟩] }⟩
        ⟨true, ["t"]⟩).state.fs.files =
      [(["t", "p", "m", "c.h"],
          CClass.generate_header_file ⟨"c", [], [], [], []⟩ "p" "m"),
       (["t", "p", "m", "c.cpp"],
          CClass.generate_source_file ⟨"c", [], [], [], []⟩ "p" "m")] ∧
    CClass.generate_source_file ⟨"c", [], [], [], []⟩ "p" "m" =
      "#include \"c.h\"\n\n" ++ namespaceBegin "p" "m" ++ "\x7d\n" ∧
    CClass.generate_source_file ⟨"c", [], [], [], []⟩ "p" "m" ≠
      "#include \"c.h\"\n\n" ++ namespaceBegin "ns" "m" ++ "\x7d\n" ∧
    CClass.generate_header_file ⟨"c", [], [], [], []⟩ "p" "m" ≠
      PRAGMA_ONCE_DEFINITION ++ "\n" ++ namespaceBegin "ns" "m"
      ++ "\tclass " ++ "c" ++ "\n" ++ "\t\x7b"
      ++ "\n" ++ "\t\x7d;\n" ++ "\x7d\n" := by
  refine ⟨rfl, rfl, by decide, by decide, by decide, by decide⟩

/-- C1 amended: an explicitly supplied non-empty namespace is stored in the
namespace field, but generation ignores that field: every header and source
text opens the namespace construct namespaceBegin gp gm, and a successful
generate_project writes, for every class of every module, files whose text is
generated with gp = the project's NAME (which coincides with the namespace
field only when the two are equal, e.g. when no namespace was supplied). -/
theorem generated_namespace_is_project_name :
    (∀ name ns : String, 0 < ns.length → (CProject.init name ns).cppnamespace = ns) ∧
    (∀ (gp gm : String) (c : CClass),
      c.generate_header_file gp gm =
        PRAGMA_ONCE_DEFINITION ++ "\n" ++ namespaceBegin gp gm
        ++ "\tclass " ++ c.name ++ "\n" ++ "\t\x7b" ++ c.publicFunctionsPart
        ++ c.publicVariablesPart ++ c.privateFunctionsPart ++ c.privateVariablesPart
        ++ "\n" ++ "\t\x7d;\n" ++ "\x7d\n" ∧
      c.generate_source_file gp gm =
        "#include \"" ++ (c.name ++ ".h") ++ "\"\n\n" ++ namespaceBegin gp gm ++ "\x7d\n") ∧
    (∀ (st stF : PState) (t : TargetPath) (m : CModule) (c : CClass),
      generate_project st t = .ok stF → m ∈ st.project.modules → c ∈ m.classes →
      (abspath st.cwd t ++ [st.project.name] ++ [m.name] ++ [c.name ++ ".h"],
        c.generate_header_file st.project.name m.name) ∈ stF.fs.files ∧
      (abspath st.cwd t ++ [st.project.name] ++ [m.name] ++ [c.name ++ ".cpp"],
        c.generate_source_file st.project.name m.name) ∈ stF.fs.files) := by
  refine ⟨?_, ?_, ?_⟩
  · intro name ns h
    simp [CProject.init, h]
  · intro gp gm c
    exact ⟨rfl, rfl⟩
  · intro st stF t m c hok hm hc
    obtain ⟨-, -, hf, -, -, -⟩ := generate_project_ok_inv st stF t hok
    rw [hf]
    obtain ⟨w1, w2⟩ := mem_projectWrites st.project.name
      (abspath st.cwd t ++ [st.project.name]) st.project.modules m c hm hc
    exact ⟨List.mem_append_right _ w1, List.mem_append_right _ w2⟩

/-- Witness for C1 amended: the concrete explicit-namespace project of the
counterexample generates successfully and the header written for its class
sits at the expected path with text formatted with the project name "p". -/
theorem generated_namespace_is_project_name_witness :
    (CProject.init "p" "ns").cppnamespace = "ns" ∧
    (["t", "p", "m", "c.h"],
      CClass.generate_header_file ⟨"c", [], [], [], []⟩ "p" "m") ∈
      (generate_project
          ⟨⟨[["t"]], []⟩, [], none, none,
            { CProject.init "p" "ns" with modules := [⟨"m", [⟨"c", [], [], [], []⟩]⟩] }⟩
          ⟨true, ["t"]⟩).state.fs.files := by
  constructor
  · exact generated_namespace_is_project_name.1 "p" "ns" (by decide)
  · have hok : generate_project
        ⟨⟨[["t"]], []⟩, [], none, none,
          { CProject.init "p" "ns" with modules := [⟨"m", [⟨"c", [], [], [], []⟩]⟩] }⟩
        ⟨true, ["t"]⟩ =
      .ok ⟨⟨[["t"], ["t", "p"], ["t", "p", "m"]],
        [(["t", "p", "m", "c.h"],
            CClass.generate_header_file ⟨"c", [], [], [], []⟩ "p" "m"),
         (["t", "p", "m", "c.cpp"],
            CClass.generate_source_file ⟨"c", [], [], [], []⟩ "p" "m")]⟩,
        ["t", "p"], some "p", none,
        { CProject.init "p" "ns" with modules := [⟨"m", [⟨"c", [], [], [], []⟩]⟩] }⟩ := by decide
    have h := (generated_namespace_is_project_name.2.2 _ _ ⟨true, ["t"]⟩
      ⟨"m", [⟨"c", [], [], [], []⟩]⟩ ⟨"c", [], [], [], []⟩ hok (by decide) (by decide)).1
    exact h
